import Mathlib

/-!
Verification development for the BlindNav speech output scheduler.

The definitions below are a shallow embedding of the speech service
(`src/services/speech/speechService.ts`) together with the configuration
constants it reads (`SPEECH_CONFIG` in `src/constants`).  Machine time
(`Date.now()`) is passed explicitly as a `Nat` parameter `now`; JavaScript
number arithmetic on timestamps is modelled exactly by casting to `Int`
before subtracting, so that `now - timestamp` can be negative exactly as in
the source.  The id produced by `generateId()` is opaque in the source and
is modelled as a caller-supplied `Nat`.  The platform speech engine
(`expo-speech`) is external: an operation that hands an utterance to
`Speech.speak` returns that utterance as the second component of its
result, and the terminal callbacks `onDone` / `onStopped` are separate
state transitions.
-/

namespace BlindNav

/-- The `Priority` union type of speechService.ts:
`'critical' | 'high' | 'normal' | 'low'`. -/
inductive Priority where
  | critical
  | high
  | normal
  | low
deriving DecidableEq

/-- The `Language` union type of speechService.ts: `'en' | 'hi'`. -/
inductive Language where
  | en
  | hi
deriving DecidableEq

/-- The rate-setting union accepted by `setSpeechRate`:
`'slow' | 'normal' | 'fast'`. -/
inductive RateSetting where
  | slow
  | normal
  | fast
deriving DecidableEq

/-- `SPEECH_CONFIG.RATE` from src/constants: slow 0.8, normal 1.0,
fast 1.3 (exact rationals). -/
def SPEECH_RATE : RateSetting → ℚ
  | .slow => 4/5
  | .normal => 1
  | .fast => 13/10

/-- `SPEECH_CONFIG.MIN_ANNOUNCEMENT_GAP` from src/constants (ms). -/
def MIN_ANNOUNCEMENT_GAP : Nat := 2000

/-- `SPEECH_CONFIG.PRIORITY_TIMEOUT` from src/constants (ms):
`critical: 0` (commented "Never drop"), `high: 5000`, `normal: 10000`,
`low: 15000`. -/
def PRIORITY_TIMEOUT : Priority → Nat
  | .critical => 0
  | .high => 5000
  | .normal => 10000
  | .low => 15000

/-- `getPriorityValue` from speechService.ts: critical 4, high 3,
normal 2, low 1. -/
def getPriorityValue : Priority → Nat
  | .critical => 4
  | .high => 3
  | .normal => 2
  | .low => 1

/-- The `SpeechQueueItem` record: `id`, `text`, `priority`, `timestamp`. -/
structure SpeechQueueItem where
  id : Nat
  text : String
  priority : Priority
  timestamp : Nat
deriving DecidableEq

/-- The module-level `SpeechServiceState` record of speechService.ts,
together with the module-level variable `lastAnnouncementTime`. -/
structure SpeechServiceState where
  isSpeaking : Bool
  queue : List SpeechQueueItem
  currentLanguage : Language
  speechRate : ℚ
  isPaused : Bool
  lastAnnouncementTime : Nat
deriving DecidableEq

/-- The initial module state of speechService.ts: not speaking, empty
queue, English, normal rate, not paused, `lastAnnouncementTime = 0`. -/
def initialState : SpeechServiceState :=
  { isSpeaking := false
    queue := []
    currentLanguage := Language.en
    speechRate := SPEECH_RATE RateSetting.normal
    isPaused := false
    lastAnnouncementTime := 0 }

/-- The sort comparator used in `addToQueue`, turned into the
"a may stay before b" relation: the comparator `cmp a b` is
`getPriorityValue b - getPriorityValue a` when that is nonzero, otherwise
`a.timestamp - b.timestamp`, and `sortLe a b` holds exactly when
`cmp a b ≤ 0`. -/
def sortLe (a b : SpeechQueueItem) : Prop :=
  getPriorityValue b.priority < getPriorityValue a.priority ∨
    (getPriorityValue a.priority = getPriorityValue b.priority ∧
      a.timestamp ≤ b.timestamp)

instance : DecidableRel sortLe := fun a b => by
  unfold sortLe
  infer_instance

instance : IsTotal SpeechQueueItem sortLe :=
  ⟨by intro a b; unfold sortLe; omega⟩

instance : IsTrans SpeechQueueItem sortLe :=
  ⟨by intro a b c; unfold sortLe; omega⟩

/-- The sort step of `addToQueue`.  JavaScript's `Array.prototype.sort` is
stable (ECMAScript 2019), and for a total, transitive comparator relation
the stable sorted permutation of a list is unique, so the source's sort is
embedded as stable insertion sort by `sortLe` (structurally recursive and
hence computable inside the kernel). -/
def sortQueue (l : List SpeechQueueItem) : List SpeechQueueItem :=
  l.insertionSort sortLe

/-- The keep-condition of the expiry sweep at the end of `addToQueue`:
`now - item.timestamp < SPEECH_CONFIG.PRIORITY_TIMEOUT[item.priority]`. -/
def sweepKeeps (now : Nat) (it : SpeechQueueItem) : Bool :=
  decide ((now : Int) - (it.timestamp : Int) < (PRIORITY_TIMEOUT it.priority : Int))

/-- The pop-time expiry test inside `processQueue`:
`now - item.timestamp > timeout && item.priority !== 'critical'`. -/
def popExpired (now : Nat) (it : SpeechQueueItem) : Bool :=
  decide ((PRIORITY_TIMEOUT it.priority : Int) < (now : Int) - (it.timestamp : Int)) &&
    decide (it.priority ≠ Priority.critical)

/-- `addToQueue` from speechService.ts: push a fresh item, stable-sort the
queue by priority (highest first) then timestamp (oldest first), then
remove items failing the expiry sweep. -/
def addToQueue (s : SpeechServiceState) (text : String) (priority : Priority)
    (now newId : Nat) : SpeechServiceState :=
  { s with
    queue :=
      (sortQueue (s.queue ++
        [{ id := newId, text := text, priority := priority, timestamp := now }])).filter
        (sweepKeeps now) }

/-- The shift / expiry-recheck / recurse loop of `processQueue`: repeatedly
shift the front item; if it is expired (and not critical) discard it and
continue with the rest; otherwise hand it to playback.  Returns the
remaining queue and the item handed to `speakItem`, if any. -/
def popEligible (now : Nat) : List SpeechQueueItem → List SpeechQueueItem × Option SpeechQueueItem
  | [] => ([], none)
  | item :: rest =>
    if popExpired now item then popEligible now rest
    else (rest, some item)

/-- `processQueue` from speechService.ts: a no-op when paused, already
speaking, or the queue is empty; otherwise pops the next eligible item and
starts speaking it (`speakItem` sets `isSpeaking := true` and calls
`Speech.speak`; the returned option is the utterance handed to the
engine).  In the branch below the guard guarantees `s.isSpeaking = false`,
so `isSpeaking` ends up `true` exactly when an item was handed to
`speakItem`, as in the source. -/
def processQueue (s : SpeechServiceState) (now : Nat) :
    SpeechServiceState × Option SpeechQueueItem :=
  if s.isPaused || s.isSpeaking || s.queue.isEmpty then (s, none)
  else
    ({ s with
        queue := (popEligible now s.queue).1
        isSpeaking := (popEligible now s.queue).2.isSome }
      , (popEligible now s.queue).2)

/-- `speakImmediate` from speechService.ts: stop current speech
(`Speech.stop()` and `isSpeaking := false`), keep only the critical items
of the queue, unshift the new critical item at the front, then
`processQueue`. -/
def speakImmediate (s : SpeechServiceState) (text : String) (now newId : Nat) :
    SpeechServiceState × Option SpeechQueueItem :=
  processQueue
    { s with
      isSpeaking := false
      queue :=
        { id := newId, text := text, priority := Priority.critical, timestamp := now } ::
          s.queue.filter (fun it => it.priority == Priority.critical) }
    now

/-- `speakHigh` from speechService.ts: `addToQueue(text, 'high')` then
`processQueue()`. -/
def speakHigh (s : SpeechServiceState) (text : String) (now newId : Nat) :
    SpeechServiceState × Option SpeechQueueItem :=
  processQueue (addToQueue s text Priority.high now newId) now

/-- `speakNormal` from speechService.ts: return without queueing when
`now - lastAnnouncementTime < SPEECH_CONFIG.MIN_ANNOUNCEMENT_GAP`,
otherwise `addToQueue(text, 'normal')` then `processQueue()`. -/
def speakNormal (s : SpeechServiceState) (text : String) (now newId : Nat) :
    SpeechServiceState × Option SpeechQueueItem :=
  if (now : Int) - (s.lastAnnouncementTime : Int) < (MIN_ANNOUNCEMENT_GAP : Int) then
    (s, none)
  else
    processQueue (addToQueue s text Priority.normal now newId) now

/-- `speakLow` from speechService.ts: `addToQueue(text, 'low')` then
`processQueue()`. -/
def speakLow (s : SpeechServiceState) (text : String) (now newId : Nat) :
    SpeechServiceState × Option SpeechQueueItem :=
  processQueue (addToQueue s text Priority.low now newId) now

/-- `speak` from speechService.ts: route by priority — critical to
`speakImmediate`, high to `speakHigh`, low to `speakLow`, default
(normal) to `speakNormal`. -/
def speak (s : SpeechServiceState) (text : String) (priority : Priority)
    (now newId : Nat) : SpeechServiceState × Option SpeechQueueItem :=
  match priority with
  | Priority.critical => speakImmediate s text now newId
  | Priority.high => speakHigh s text now newId
  | Priority.low => speakLow s text now newId
  | Priority.normal => speakNormal s text now newId

/-- The `onDone` callback installed by `speakItem`: clear `isSpeaking` and
record the completion time in `lastAnnouncementTime` (the follow-up
`processQueue` is scheduled 300 ms later and is a separate
`processQueue` step). -/
def onDone (s : SpeechServiceState) (now : Nat) : SpeechServiceState :=
  { s with isSpeaking := false, lastAnnouncementTime := now }

/-- The `onStopped` callback installed by `speakItem`: clear `isSpeaking`
without advancing the queue. -/
def onStopped (s : SpeechServiceState) : SpeechServiceState :=
  { s with isSpeaking := false }

/-- `pause` from speechService.ts: set `isPaused`, stop platform speech,
clear `isSpeaking`. -/
def pause (s : SpeechServiceState) : SpeechServiceState :=
  { s with isPaused := true, isSpeaking := false }

/-- `resume` from speechService.ts: clear `isPaused` then
`processQueue()`. -/
def resume (s : SpeechServiceState) (now : Nat) :
    SpeechServiceState × Option SpeechQueueItem :=
  processQueue { s with isPaused := false } now

/-- `stop` from speechService.ts: stop platform speech, clear the queue,
clear `isSpeaking` and `isPaused`. -/
def stop (s : SpeechServiceState) : SpeechServiceState :=
  { s with queue := [], isSpeaking := false, isPaused := false }

/-- `setLanguage` from speechService.ts. -/
def setLanguage (s : SpeechServiceState) (l : Language) : SpeechServiceState :=
  { s with currentLanguage := l }

/-- `setSpeechRate` from speechService.ts. -/
def setSpeechRate (s : SpeechServiceState) (r : RateSetting) : SpeechServiceState :=
  { s with speechRate := SPEECH_RATE r }

/-- `getQueueLength` from speechService.ts. -/
def getQueueLength (s : SpeechServiceState) : Nat :=
  s.queue.length

/-! ### Sequences of enqueue-style submissions -/

/-- One of the three queue-inserting public submission operations
(`speakHigh`, `speakNormal`, `speakLow`). -/
inductive SubmitKind where
  | high
  | normal
  | low
deriving DecidableEq

/-- One enqueue-style submission: which operation, the text, the value of
`Date.now()` at the call, and the id produced by `generateId()`. -/
structure Submission where
  kind : SubmitKind
  text : String
  now : Nat
  id : Nat
deriving DecidableEq

/-- Run a single enqueue-style submission against the service state. -/
def submitOne (s : SpeechServiceState) (c : Submission) : SpeechServiceState :=
  match c.kind with
  | SubmitKind.high => (speakHigh s c.text c.now c.id).1
  | SubmitKind.normal => (speakNormal s c.text c.now c.id).1
  | SubmitKind.low => (speakLow s c.text c.now c.id).1

/-- Run a sequence of enqueue-style submissions against the service
state. -/
def runSubmissions (s : SpeechServiceState) (cs : List Submission) : SpeechServiceState :=
  cs.foldl submitOne s

/-! ### Basic facts about the embedded operations -/

theorem popExpired_critical (now : Nat) (it : SpeechQueueItem)
    (h : it.priority = Priority.critical) : popExpired now it = false := by
  simp [popExpired, h]

theorem popExpired_fresh (now : Nat) (it : SpeechQueueItem)
    (h : it.timestamp = now) : popExpired now it = false := by
  have hlt : ¬ ((PRIORITY_TIMEOUT it.priority : Int) < (now : Int) - (it.timestamp : Int)) := by
    rw [h]
    omega
  simp [popExpired, hlt]

theorem popEligible_fst_sublist (now : Nat) :
    ∀ q : List SpeechQueueItem, List.Sublist (popEligible now q).1 q := by
  intro q
  induction q with
  | nil => simp [popEligible]
  | cons x rest ih =>
    by_cases h : popExpired now x = true
    · simpa [popEligible, h] using ih.cons x
    · have h' : popExpired now x = false := by simpa using h
      simp [popEligible, h']

theorem popEligible_some_not_expired (now : Nat) :
    ∀ (q : List SpeechQueueItem) (it : SpeechQueueItem),
      (popEligible now q).2 = some it → popExpired now it = false := by
  intro q
  induction q with
  | nil =>
    intro it h
    simp [popEligible] at h
  | cons x rest ih =>
    intro it h
    by_cases hx : popExpired now x = true
    · rw [popEligible, if_pos hx] at h
      exact ih it h
    · have hx' : popExpired now x = false := by simpa using hx
      rw [popEligible, if_neg hx] at h
      simp only [Option.some.injEq] at h
      rw [← h]
      exact hx'

theorem popEligible_mem (now : Nat) (it : SpeechQueueItem) :
    ∀ q : List SpeechQueueItem, it ∈ q → popExpired now it = false →
      (popEligible now q).2 = some it ∨ it ∈ (popEligible now q).1 := by
  intro q
  induction q with
  | nil =>
    intro h
    simp at h
  | cons x rest ih =>
    intro hmem hne
    by_cases hx : popExpired now x = true
    · have hr : it ∈ rest := by
        rcases List.mem_cons.mp hmem with rfl | h
        · rw [hne] at hx
          simp at hx
        · exact h
      simpa [popEligible, hx] using ih hr hne
    · have hx' : popExpired now x = false := by simpa using hx
      rcases List.mem_cons.mp hmem with rfl | h
      · left
        simp [popEligible, hx']
      · right
        simp [popEligible, hx', h]

theorem processQueue_fst_queue_sublist (s : SpeechServiceState) (now : Nat) :
    List.Sublist (processQueue s now).1.queue s.queue := by
  unfold processQueue
  split
  · exact List.Sublist.refl _
  · exact popEligible_fst_sublist now s.queue

theorem processQueue_isPaused (s : SpeechServiceState) (now : Nat) :
    (processQueue s now).1.isPaused = s.isPaused := by
  unfold processQueue
  split <;> rfl

theorem processQueue_last (s : SpeechServiceState) (now : Nat) :
    (processQueue s now).1.lastAnnouncementTime = s.lastAnnouncementTime := by
  unfold processQueue
  split <;> rfl

theorem processQueue_snd_not_expired (s : SpeechServiceState) (now : Nat)
    (it : SpeechQueueItem) (h : (processQueue s now).2 = some it) :
    popExpired now it = false := by
  unfold processQueue at h
  split at h
  · simp at h
  · exact popEligible_some_not_expired now s.queue it h

theorem processQueue_mem (s : SpeechServiceState) (now : Nat) (it : SpeechQueueItem)
    (hmem : it ∈ s.queue) (hne : popExpired now it = false) :
    it ∈ (processQueue s now).1.queue ∨ (processQueue s now).2 = some it := by
  unfold processQueue
  split
  · left
    exact hmem
  · rcases popEligible_mem now it s.queue hmem hne with h | h
    · right
      exact h
    · left
      exact h

theorem mem_addToQueue_new (s : SpeechServiceState) (text : String) (p : Priority)
    (now newId : Nat) (h0 : 0 < PRIORITY_TIMEOUT p) :
    ({ id := newId, text := text, priority := p, timestamp := now } : SpeechQueueItem) ∈
      (addToQueue s text p now newId).queue := by
  unfold addToQueue sortQueue
  simp only [List.mem_filter, List.mem_insertionSort, List.mem_append, List.mem_singleton,
    sweepKeeps, decide_eq_true_eq]
  refine ⟨by simp, ?_⟩
  omega

theorem submitted_queued_or_spoken (s : SpeechServiceState) (text : String) (p : Priority)
    (now newId : Nat) (h0 : 0 < PRIORITY_TIMEOUT p) :
    ({ id := newId, text := text, priority := p, timestamp := now } : SpeechQueueItem) ∈
        (processQueue (addToQueue s text p now newId) now).1.queue ∨
      (processQueue (addToQueue s text p now newId) now).2 =
        some { id := newId, text := text, priority := p, timestamp := now } :=
  processQueue_mem _ _ _ (mem_addToQueue_new s text p now newId h0) (popExpired_fresh _ _ rfl)

theorem mem_filter_critical {q : List SpeechQueueItem} {it : SpeechQueueItem}
    (h : it ∈ q.filter (fun x => x.priority == Priority.critical)) :
    it.priority = Priority.critical := by
  simp only [List.mem_filter, beq_iff_eq] at h
  exact h.2

theorem sorted_addToQueue (s : SpeechServiceState) (text : String) (p : Priority)
    (now newId : Nat) : ((addToQueue s text p now newId).queue).Sorted sortLe :=
  List.Pairwise.filter _ (List.sorted_insertionSort sortLe _)

theorem sorted_processQueue (s : SpeechServiceState) (now : Nat)
    (h : s.queue.Sorted sortLe) : ((processQueue s now).1.queue).Sorted sortLe :=
  List.Pairwise.sublist (processQueue_fst_queue_sublist s now) h

theorem speakImmediate_not_paused (s : SpeechServiceState) (text : String)
    (now newId : Nat) (h : s.isPaused = false) :
    speakImmediate s text now newId =
      ({ s with
          isSpeaking := true
          queue := s.queue.filter (fun it => it.priority == Priority.critical) },
        some { id := newId, text := text, priority := Priority.critical, timestamp := now }) := by
  have hpe :
      popEligible now
          ({ id := newId, text := text, priority := Priority.critical, timestamp := now } ::
            s.queue.filter (fun it => it.priority == Priority.critical)) =
        (s.queue.filter (fun it => it.priority == Priority.critical),
          some { id := newId, text := text, priority := Priority.critical, timestamp := now }) := by
    rw [popEligible, if_neg]
    rw [popExpired_critical now _ rfl]
    simp
  simp [speakImmediate, processQueue, h, hpe]

theorem speakImmediate_paused (s : SpeechServiceState) (text : String)
    (now newId : Nat) (h : s.isPaused = true) :
    speakImmediate s text now newId =
      ({ s with
          isSpeaking := false
          queue :=
            { id := newId, text := text, priority := Priority.critical, timestamp := now } ::
              s.queue.filter (fun it => it.priority == Priority.critical) },
        none) := by
  simp [speakImmediate, processQueue, h]

theorem speakImmediate_queue_all_critical (s : SpeechServiceState) (text : String)
    (now newId : Nat) :
    ∀ it ∈ (speakImmediate s text now newId).1.queue, it.priority = Priority.critical := by
  intro it hmem
  cases hp : s.isPaused with
  | false =>
    rw [speakImmediate_not_paused s text now newId hp] at hmem
    exact mem_filter_critical hmem
  | true =>
    rw [speakImmediate_paused s text now newId hp] at hmem
    rcases List.mem_cons.mp hmem with rfl | h
    · rfl
    · exact mem_filter_critical h

theorem speakNormal_isPaused (s : SpeechServiceState) (text : String) (now newId : Nat) :
    (speakNormal s text now newId).1.isPaused = s.isPaused := by
  unfold speakNormal
  split
  · rfl
  · exact processQueue_isPaused _ _

theorem speakNormal_last (s : SpeechServiceState) (text : String) (now newId : Nat) :
    (speakNormal s text now newId).1.lastAnnouncementTime = s.lastAnnouncementTime := by
  unfold speakNormal
  split
  · rfl
  · exact processQueue_last _ _

theorem sorted_submitOne (s : SpeechServiceState) (c : Submission)
    (h : s.queue.Sorted sortLe) : ((submitOne s c).queue).Sorted sortLe := by
  cases hk : c.kind with
  | high =>
    simp only [submitOne, hk, speakHigh]
    exact sorted_processQueue _ _ (sorted_addToQueue ..)
  | normal =>
    simp only [submitOne, hk, speakNormal]
    split
    · exact h
    · exact sorted_processQueue _ _ (sorted_addToQueue ..)
  | low =>
    simp only [submitOne, hk, speakLow]
    exact sorted_processQueue _ _ (sorted_addToQueue ..)

theorem sorted_runSubmissions (cs : List Submission) :
    ∀ s : SpeechServiceState, s.queue.Sorted sortLe →
      ((runSubmissions s cs).queue).Sorted sortLe := by
  induction cs with
  | nil => intro s h; exact h
  | cons c cs ih =>
    intro s h
    exact ih _ (sorted_submitOne s c h)

theorem popEligible_cons_critical (now : Nat) (it : SpeechQueueItem)
    (rest : List SpeechQueueItem) (h : it.priority = Priority.critical) :
    popEligible now (it :: rest) = (rest, some it) := by
  rw [popEligible, if_neg]
  rw [popExpired_critical now it h]
  simp

theorem speakNormal_throttled (s : SpeechServiceState) (text : String) (now newId : Nat)
    (h : (now : Int) - (s.lastAnnouncementTime : Int) < (MIN_ANNOUNCEMENT_GAP : Int)) :
    speakNormal s text now newId = (s, none) := by
  unfold speakNormal
  rw [if_pos h]

/-! ### The claims -/

/-- C1 (the code contradicts it): a `critical` utterance placed in the
queue is removed by the expiry sweep that `addToQueue` runs on the next
submission.  Concretely: while paused, `speakImmediate "B"` at time 0
leaves the critical item queued, and a following `speakLow "y"` at the
same time 0 sweeps the critical item away, because the sweep keeps an item
only when `now - timestamp < timeout` and the `critical` timeout is 0. -/
theorem critical_expiry_sweep_bug :
    (speakImmediate (pause initialState) "B" 0 1).1.queue =
        [{ id := 1, text := "B", priority := Priority.critical, timestamp := 0 }] ∧
      (speakLow (speakImmediate (pause initialState) "B" 0 1).1 "y" 0 2).1.queue =
        [{ id := 2, text := "y", priority := Priority.low, timestamp := 0 }] := by
  decide

/-- C2 (counterexample to the claim as stated): with an earlier unexpired
critical utterance `c1` already queued (submitted at time 0 while paused),
a later `speakImmediate "x"` at time 100 is dequeued first on `resume`,
ahead of `c1` — the code unshifts the new critical at the front, so order
among criticals is last-in-first-out, not first-in-first-served. -/
theorem speakImmediate_fifo_counterexample :
    ({ id := 1, text := "c1", priority := Priority.critical, timestamp := 0 } :
        SpeechQueueItem) ∈
        (speakImmediate (speakImmediate (pause initialState) "c1" 0 1).1 "x" 100 2).1.queue ∧
      (resume (speakImmediate (speakImmediate (pause initialState) "c1" 0 1).1 "x" 100 2).1
            1000).2 =
        some { id := 2, text := "x", priority := Priority.critical, timestamp := 100 } ∧
      (resume (speakImmediate (speakImmediate (pause initialState) "c1" 0 1).1 "x" 100 2).1
            1000).2 ≠
        some { id := 1, text := "c1", priority := Priority.critical, timestamp := 0 } := by
  decide

/-- C2 (amended): for every prior queue content, `speakImmediate x` drops
every queued non-critical utterance and makes `x` the next utterance
dequeued — `x` is inserted at the front, ahead of any earlier queued
critical item (last-in-first-out among criticals), so no
first-in-first-served exception applies: when not paused `x` is handed to
playback immediately, and when paused `x` sits at the head of the
queue. -/
theorem speakImmediate_front_spec (s : SpeechServiceState) (text : String)
    (now newId : Nat) :
    (∀ it ∈ (speakImmediate s text now newId).1.queue, it.priority = Priority.critical) ∧
      (s.isPaused = false →
        (speakImmediate s text now newId).2 =
          some { id := newId, text := text, priority := Priority.critical, timestamp := now }) ∧
      (s.isPaused = true →
        (speakImmediate s text now newId).2 = none ∧
          (speakImmediate s text now newId).1.queue.head? =
            some { id := newId, text := text, priority := Priority.critical,
                    timestamp := now }) := by
  refine ⟨speakImmediate_queue_all_critical s text now newId, ?_, ?_⟩
  · intro h
    rw [speakImmediate_not_paused s text now newId h]
  · intro h
    rw [speakImmediate_paused s text now newId h]
    exact ⟨rfl, rfl⟩

theorem speakImmediate_front_spec_witness :
    (speakImmediate initialState "ahead" 3 1).2 =
        some { id := 1, text := "ahead", priority := Priority.critical, timestamp := 3 } ∧
      (speakImmediate (pause initialState) "ahead" 3 1).2 = none := by
  have h1 := (speakImmediate_front_spec initialState "ahead" 3 1).2.1 rfl
  have h2 := ((speakImmediate_front_spec (pause initialState) "ahead" 3 1).2.2 rfl).1
  exact ⟨h1, h2⟩

/-- C9: for every state, `stop()` halts current speech, empties the queue
and resets the playback flags (`isSpeaking = false`, `getQueueLength = 0`,
`paused = false`), and `stop` is idempotent. -/
theorem stop_spec (s : SpeechServiceState) :
    (stop s).isSpeaking = false ∧ getQueueLength (stop s) = 0 ∧
      (stop s).isPaused = false ∧ stop (stop s) = stop s :=
  ⟨rfl, rfl, rfl, rfl⟩

/-- C10: pause gates even critical alerts — if the service is paused, a
critical submission halts in-flight speech and puts the critical item at
the front of the queue, but `processQueue` is a no-op while paused, so
nothing is handed to playback and `isSpeaking` stays `false`; the critical
item is the one spoken once `resume()` runs.  Also, `speak` with priority
`critical` is exactly `speakImmediate`. -/
theorem paused_critical_gating (s : SpeechServiceState) (text : String)
    (now newId now2 : Nat) (h : s.isPaused = true) :
    (speakImmediate s text now newId).2 = none ∧
      (speakImmediate s text now newId).1.isSpeaking = false ∧
      (speakImmediate s text now newId).1.isPaused = true ∧
      (speakImmediate s text now newId).1.queue.head? =
        some { id := newId, text := text, priority := Priority.critical, timestamp := now } ∧
      (resume (speakImmediate s text now newId).1 now2).2 =
        some { id := newId, text := text, priority := Priority.critical, timestamp := now } ∧
      speak s text Priority.critical now newId = speakImmediate s text now newId := by
  refine ⟨?_, ?_, ?_, ?_, ?_, rfl⟩
  · rw [speakImmediate_paused s text now newId h]
  · rw [speakImmediate_paused s text now newId h]
  · rw [speakImmediate_paused s text now newId h]
    exact h
  · rw [speakImmediate_paused s text now newId h]
    rfl
  · rw [speakImmediate_paused s text now newId h]
    have hpe := popEligible_cons_critical now2
      { id := newId, text := text, priority := Priority.critical, timestamp := now }
      (s.queue.filter (fun it => it.priority == Priority.critical)) rfl
    simp [resume, processQueue, hpe]

theorem paused_critical_gating_witness :
    (speakImmediate (pause initialState) "stairs" 7 1).2 = none ∧
      (resume (speakImmediate (pause initialState) "stairs" 7 1).1 9).2 =
        some { id := 1, text := "stairs", priority := Priority.critical, timestamp := 7 } := by
  have h := paused_critical_gating (pause initialState) "stairs" 7 1 9 rfl
  exact ⟨h.1, h.2.2.2.2.1⟩

/-- C3: for every sequence of enqueue-style submissions
(`speakHigh`/`speakNormal`/`speakLow`) run from the initial state, any two
utterances in the resulting pending queue at positions `i < j` satisfy:
the earlier one has strictly greater priority rank, or they have equal
rank and the earlier one has the smaller-or-equal submission timestamp —
higher-ranked items come strictly before lower-ranked ones and equal
ranks are in ascending submission-timestamp order. -/
theorem submission_queue_order (cs : List Submission) (i j : Nat)
    (hi : i < (runSubmissions initialState cs).queue.length)
    (hj : j < (runSubmissions initialState cs).queue.length) (hij : i < j) :
    getPriorityValue ((runSubmissions initialState cs).queue[j].priority) <
        getPriorityValue ((runSubmissions initialState cs).queue[i].priority) ∨
      (getPriorityValue ((runSubmissions initialState cs).queue[i].priority) =
          getPriorityValue ((runSubmissions initialState cs).queue[j].priority) ∧
        (runSubmissions initialState cs).queue[i].timestamp ≤
          (runSubmissions initialState cs).queue[j].timestamp) := by
  have hs : ((runSubmissions initialState cs).queue).Pairwise sortLe :=
    sorted_runSubmissions cs initialState List.Pairwise.nil
  exact List.pairwise_iff_getElem.mp hs i j hi hj hij

theorem submission_queue_order_witness :
    getPriorityValue
        (((runSubmissions initialState
              [{ kind := SubmitKind.low, text := "a", now := 0, id := 1 },
                { kind := SubmitKind.low, text := "b", now := 1, id := 2 },
                { kind := SubmitKind.high, text := "c", now := 2, id := 3 }]).queue.getD 1
            { id := 0, text := "", priority := Priority.low, timestamp := 0 }).priority) <
      getPriorityValue
        (((runSubmissions initialState
              [{ kind := SubmitKind.low, text := "a", now := 0, id := 1 },
                { kind := SubmitKind.low, text := "b", now := 1, id := 2 },
                { kind := SubmitKind.high, text := "c", now := 2, id := 3 }]).queue.getD 0
            { id := 0, text := "", priority := Priority.low, timestamp := 0 }).priority) := by
  have h := submission_queue_order
    [{ kind := SubmitKind.low, text := "a", now := 0, id := 1 },
      { kind := SubmitKind.low, text := "b", now := 1, id := 2 },
      { kind := SubmitKind.high, text := "c", now := 2, id := 3 }]
    0 1 (by decide) (by decide) (by decide)
  revert h
  decide

/-- C4: a `normal` submission is rejected (state unchanged, nothing
queued or spoken) exactly when `now - lastAnnouncementTime <
MIN_ANNOUNCEMENT_GAP`; otherwise its fresh item is queued or handed
straight to playback; and `high`, `low` and `critical` submissions are
never rejected by this throttle — their fresh item is always queued or
handed to playback. -/
theorem normal_throttle_spec (s : SpeechServiceState) (text : String) (now newId : Nat) :
    ((now : Int) - (s.lastAnnouncementTime : Int) < (MIN_ANNOUNCEMENT_GAP : Int) →
        speakNormal s text now newId = (s, none)) ∧
      (¬ ((now : Int) - (s.lastAnnouncementTime : Int) < (MIN_ANNOUNCEMENT_GAP : Int)) →
        ({ id := newId, text := text, priority := Priority.normal, timestamp := now } :
              SpeechQueueItem) ∈ (speakNormal s text now newId).1.queue ∨
          (speakNormal s text now newId).2 =
            some { id := newId, text := text, priority := Priority.normal, timestamp := now }) ∧
      (({ id := newId, text := text, priority := Priority.high, timestamp := now } :
            SpeechQueueItem) ∈ (speakHigh s text now newId).1.queue ∨
        (speakHigh s text now newId).2 =
          some { id := newId, text := text, priority := Priority.high, timestamp := now }) ∧
      (({ id := newId, text := text, priority := Priority.low, timestamp := now } :
            SpeechQueueItem) ∈ (speakLow s text now newId).1.queue ∨
        (speakLow s text now newId).2 =
          some { id := newId, text := text, priority := Priority.low, timestamp := now }) ∧
      (({ id := newId, text := text, priority := Priority.critical, timestamp := now } :
            SpeechQueueItem) ∈ (speakImmediate s text now newId).1.queue ∨
        (speakImmediate s text now newId).2 =
          some { id := newId, text := text, priority := Priority.critical, timestamp := now }) := by
  refine ⟨speakNormal_throttled s text now newId, ?_, ?_, ?_, ?_⟩
  · intro h
    unfold speakNormal
    rw [if_neg h]
    exact submitted_queued_or_spoken s text Priority.normal now newId (by decide)
  · exact submitted_queued_or_spoken s text Priority.high now newId (by decide)
  · exact submitted_queued_or_spoken s text Priority.low now newId (by decide)
  · cases hp : s.isPaused with
    | false =>
      rw [speakImmediate_not_paused s text now newId hp]
      right
      rfl
    | true =>
      rw [speakImmediate_paused s text now newId hp]
      left
      exact List.mem_cons_self _ _

theorem normal_throttle_spec_witness :
    speakNormal initialState "scene" 100 1 = (initialState, none) ∧
      (speakLow initialState "bg" 100 2).2 =
        some { id := 2, text := "bg", priority := Priority.low, timestamp := 100 } := by
  have h1 := (normal_throttle_spec initialState "scene" 100 1).1 (by decide)
  have h2 := (normal_throttle_spec initialState "bg" 100 2).2.2.2.1
  refine ⟨h1, ?_⟩
  rcases h2 with h | h
  · revert h
    decide
  · exact h

/-- C5 (the code contradicts it): no public submission operation checks
for empty text.  A `speak` with empty text while paused mutates the queue
(`getQueueLength` goes from 0 to 1), and while unpaused the empty
utterance is handed straight to playback — it is neither rejected nor
ignored. -/
theorem empty_text_accepted_bug :
    getQueueLength (speak (pause initialState) "" Priority.normal 2000 1).1 = 1 ∧
      getQueueLength (pause initialState) = 0 ∧
      (speak initialState "" Priority.normal 2000 1).2 =
        some { id := 1, text := "", priority := Priority.normal, timestamp := 2000 } := by
  decide

/-- C6 (counterexample to the claim as stated): a `high` utterance
submitted at time 0 is returned by the `processQueue` pop at time exactly
0 + 5000, because the pop-time check uses strict `>` — invoked at a time
`≥ t + 5000` the utterance can still be returned. -/
theorem high_expiry_boundary_counterexample :
    (processQueue (onStopped (speakHigh (speakLow initialState "x" 0 1).1 "h" 0 2).1)
          5000).2 =
      some { id := 2, text := "h", priority := Priority.high, timestamp := 0 } := by
  decide

/-- C6 (amended): a `high` utterance submitted at time `t` is never
returned by the `processQueue` pop invoked at any time strictly greater
than `t + 5000`; such an expired item is skipped and discarded, not
handed to playback. -/
theorem expired_high_never_dequeued (s : SpeechServiceState) (now : Nat)
    (it : SpeechQueueItem) (hpr : it.priority = Priority.high)
    (hexp : (it.timestamp : Int) + 5000 < (now : Int)) :
    (processQueue s now).2 ≠ some it := by
  intro hsome
  have hne := processQueue_snd_not_expired s now it hsome
  have hex : popExpired now it = true := by
    simp only [popExpired, hpr, PRIORITY_TIMEOUT, Bool.and_eq_true, decide_eq_true_eq]
    exact ⟨by omega, by decide⟩
  rw [hne] at hex
  simp at hex

theorem expired_high_never_dequeued_witness :
    (processQueue (onStopped (speakHigh (speakLow initialState "x" 0 1).1 "h" 0 2).1)
          5001).2 ≠
      some { id := 2, text := "h", priority := Priority.high, timestamp := 0 } :=
  expired_high_never_dequeued _ 5001 _ rfl (by decide)

/-- C7 (counterexample to the claim as stated): while paused, submit the
`normal` utterance A at time 5000 (it is queued and unexpired), then
submit the critical B at the same time 5000 — A does not remain in the
queue: the critical interruption drops it even though A has not
expired. -/
theorem normal_dropped_by_critical_counterexample :
    (speakNormal (pause initialState) "A" 5000 1).1.queue =
        [{ id := 1, text := "A", priority := Priority.normal, timestamp := 5000 }] ∧
      (speak (speakNormal (pause initialState) "A" 5000 1).1 "B" Priority.critical
            5000 2).1.queue =
        [{ id := 2, text := "B", priority := Priority.critical, timestamp := 5000 }] := by
  decide

/-- C7 (amended): after a `normal` utterance A is submitted and a critical
B is submitted right afterwards, B is the next utterance spoken (handed to
playback immediately when not paused), and A does not remain in the queue:
the critical interruption drops every non-critical queued utterance,
expired or not, so only critical items can remain queued. -/
theorem critical_after_normal_spec (s : SpeechServiceState) (a b : String)
    (t1 t2 id1 id2 : Nat) :
    (∀ it ∈ (speakImmediate (speakNormal s a t1 id1).1 b t2 id2).1.queue,
        it.priority = Priority.critical) ∧
      (s.isPaused = false →
        (speakImmediate (speakNormal s a t1 id1).1 b t2 id2).2 =
          some { id := id2, text := b, priority := Priority.critical, timestamp := t2 }) := by
  refine ⟨speakImmediate_queue_all_critical _ b t2 id2, ?_⟩
  intro h
  have hp : (speakNormal s a t1 id1).1.isPaused = false := by
    rw [speakNormal_isPaused, h]
  rw [speakImmediate_not_paused _ b t2 id2 hp]

theorem critical_after_normal_spec_witness :
    (speakImmediate (speakNormal initialState "A" 2000 1).1 "B" 2000 2).2 =
      some { id := 2, text := "B", priority := Priority.critical, timestamp := 2000 } :=
  (critical_after_normal_spec initialState "A" "B" 2000 2000 1 2).2 rfl

/-- C8 (counterexample to the claim as stated): two `normal` submissions
500 ms apart (at 5000 and 5500, while paused so the queue is observable)
are both accepted — `getQueueLength` goes from 1 to 2 on the second call —
because the throttle compares against `lastAnnouncementTime` (still 0, no
utterance has finished playback), not against the first submission's
time. -/
theorem normal_pair_throttle_counterexample :
    (speakNormal (pause initialState) "a" 5000 1).1.queue.length = 1 ∧
      (speakNormal (speakNormal (pause initialState) "a" 5000 1).1 "b" 5500 2).1.queue.length =
        2 := by
  decide

/-- C8 (amended): a `normal` submission does not update
`lastAnnouncementTime` (only the `onDone` completion callback does), and
the second of two `normal` submissions is dropped — state unchanged, so
`getQueueLength` unchanged — exactly when it arrives within
`MIN_ANNOUNCEMENT_GAP` of `lastAnnouncementTime`, the last playback
completion, not within the gap of the first submission. -/
theorem normal_throttle_uses_lastAnnouncement (s : SpeechServiceState) (a b : String)
    (t1 t2 id1 id2 : Nat) :
    (speakNormal s a t1 id1).1.lastAnnouncementTime = s.lastAnnouncementTime ∧
      (onDone s t1).lastAnnouncementTime = t1 ∧
      ((t2 : Int) - (s.lastAnnouncementTime : Int) < (MIN_ANNOUNCEMENT_GAP : Int) →
        speakNormal (speakNormal s a t1 id1).1 b t2 id2 =
          ((speakNormal s a t1 id1).1, none)) := by
  refine ⟨speakNormal_last s a t1 id1, rfl, ?_⟩
  intro h
  refine speakNormal_throttled _ b t2 id2 ?_
  rw [speakNormal_last]
  exact h

theorem normal_throttle_uses_lastAnnouncement_witness :
    speakNormal (speakNormal initialState "a" 0 1).1 "b" 1000 2 =
      ((speakNormal initialState "a" 0 1).1, none) :=
  (normal_throttle_uses_lastAnnouncement initialState "a" "b" 0 1000 1 2).2.2 (by decide)

end BlindNav
